import Mathlib

/-!
Verification of the draft lifecycle core of the linquoral-app repository:
the Draft entity model (src/models/Draft.js), the Draft Store reducer and
its public operations (src/context/DraftContext.js), the draft service
gateway (src/services/draftService.js), the recording validators
(src/utils/validators.js) and the voice capture phase machine
(src/components/VoiceRecorder.js), shallowly embedded in Lean.

JavaScript strings are modelled as `String`; the JS truthiness test used
on the text fields (`a || b`) is modelled by `jsOr`, which tests for the
empty string, matching the behaviour on string-valued fields.
Asynchronous gateway calls are modelled as explicit `Except String`
values (resolution or rejection); a thrown JS exception is the `.error`
branch, and `jsCatch` models a `try { } catch (error) { }` block.
-/

namespace Linquoral

/-- JS `a || b` on strings: the empty string is the only falsy string. -/
def jsOr (a b : String) : String :=
  if a = ("") then b else a

/-- The Draft entity (src/models/Draft.js, `createDraft`).  The
`createdAt`/`updatedAt` wall-clock timestamps and the `mediaAttachments`
list are omitted: no claim under verification mentions them. -/
structure Draft where
  id : String
  userId : String
  rawTranscript : String
  aiRefinedText : String
  userEditedText : String
  title : String
  tone : String
  status : String
  scheduledAt : Option String
  publishedAt : Option String
  audioUri : Option String
  audioDurationMs : Nat
  deriving Repr, DecidableEq

/-- `getDisplayText` (src/models/Draft.js line 63):
`draft.userEditedText || draft.aiRefinedText || draft.rawTranscript`. -/
def getDisplayText (d : Draft) : String :=
  jsOr d.userEditedText (jsOr d.aiRefinedText d.rawTranscript)

/-- `generateTitleFromContent` (src/models/Draft.js line 73): collapse
newlines to spaces, trim, and truncate with an ellipsis past `maxLength`. -/
def generateTitleFromContent (text : String) (maxLength : Nat := 40) : String :=
  let cleaned := (text.replace ("\n") (" ")).trim
  if cleaned.length ≤ maxLength then cleaned
  else (cleaned.take maxLength).trim ++ ("...")

/-- The `stats` aggregate of the store state (src/context/DraftContext.js
line 21). -/
structure Stats where
  totalDrafts : Nat
  scheduledPosts : Nat
  publishedPosts : Nat
  deriving Repr, DecidableEq

/-- The reducer-owned store state (src/context/DraftContext.js,
`initialState`, line 17). -/
structure DraftStoreState where
  drafts : List Draft
  currentDraft : Option Draft
  recentDraft : Option Draft
  stats : Stats
  isLoading : Bool
  isProcessing : Bool
  error : Option String
  filter : String
  deriving Repr, DecidableEq

/-- `initialState` (src/context/DraftContext.js line 17). -/
def initialState : DraftStoreState :=
  { drafts := []
    currentDraft := none
    recentDraft := none
    stats := { totalDrafts := 0, scheduledPosts := 0, publishedPosts := 0 }
    isLoading := false
    isProcessing := false
    error := none
    filter := ("all") }

/-- The action types dispatched to the reducer (src/context/DraftContext.js
`DRAFT_ACTIONS`, line 35), each carrying its payload. -/
inductive DraftAction where
  | fetchDraftsStart
  | fetchDraftsSuccess (drafts : List Draft)
  | fetchDraftsFail (error : String)
  | setCurrentDraft (draft : Draft)
  | clearCurrentDraft
  | createDraftStart
  | createDraftSuccess (draft : Draft)
  | createDraftFail (error : String)
  | updateDraftSuccess (draft : Draft)
  | deleteDraftSuccess (draftId : String)
  | processVoiceStart
  | processVoiceSuccess (draft : Draft)
  | processVoiceFail (error : String)
  | setRecentDraft (draft : Draft)
  | setStats (stats : Stats)
  | setFilter (filter : String)
  | clearError
  deriving Repr, DecidableEq

/-- `draftReducer` (src/context/DraftContext.js line 63).  Nat subtraction
in the `deleteDraftSuccess` branch truncates at zero, matching the
source`s `Math.max(0, state.stats.totalDrafts - 1)`. -/
def draftReducer (state : DraftStoreState) (action : DraftAction) :
    DraftStoreState :=
  match action with
  | .fetchDraftsStart =>
      { state with isLoading := true, error := none }
  | .fetchDraftsSuccess drafts =>
      { state with drafts := drafts, isLoading := false, error := none }
  | .fetchDraftsFail e =>
      { state with isLoading := false, error := some e }
  | .setCurrentDraft d =>
      { state with currentDraft := some d }
  | .clearCurrentDraft =>
      { state with currentDraft := none }
  | .createDraftStart =>
      { state with isLoading := true, error := none }
  | .createDraftSuccess d =>
      { state with
          drafts := d :: state.drafts
          currentDraft := some d
          recentDraft := some d
          stats := { state.stats with totalDrafts := state.stats.totalDrafts + 1 }
          isLoading := false }
  | .createDraftFail e =>
      { state with isLoading := false, error := some e }
  | .updateDraftSuccess d =>
      { state with
          drafts := state.drafts.map (fun x => if x.id = d.id then d else x)
          currentDraft :=
            match state.currentDraft with
            | some c => if c.id = d.id then some d else some c
            | none => none }
  | .deleteDraftSuccess draftId =>
      { state with
          drafts := state.drafts.filter (fun x => x.id ≠ draftId)
          currentDraft :=
            match state.currentDraft with
            | some c => if c.id = draftId then none else some c
            | none => none
          stats := { state.stats with totalDrafts := state.stats.totalDrafts - 1 } }
  | .processVoiceStart =>
      { state with isProcessing := true, error := none }
  | .processVoiceSuccess d =>
      { state with isProcessing := false, currentDraft := some d }
  | .processVoiceFail e =>
      { state with isProcessing := false, error := some e }
  | .setRecentDraft d =>
      { state with recentDraft := some d }
  | .setStats stats =>
      { state with stats := stats }
  | .setFilter f =>
      { state with filter := f }
  | .clearError =>
      { state with error := none }

/-- A JS `try { body } catch (error) { handler }` block: the `.error`
branch of `body` is the thrown exception reaching the catch. -/
def jsCatch {α : Type} (body : Except String α)
    (handler : String → Except String α) : Except String α :=
  match body with
  | .ok a => .ok a
  | .error e => handler e

/-- The `\x7bsuccess, error?, draft?, refinedText?\x7d` result object the
store operations return to UI callers (src/context/DraftContext.js). -/
structure OpResult where
  success : Bool
  error : Option String := none
  draft : Option Draft := none
  refinedText : Option String := none
  deriving Repr, DecidableEq

/-- `fetchDrafts` (src/context/DraftContext.js line 217).
`listResult` is the settled promise of `draftService.getDrafts` and
`cached` the value of `draftService.getCachedDrafts`, which never rejects
(src/services/draftService.js catches internally and returns `[]`).
Returns the final store state and the value returned to the caller:
the fetched list on success, `[]` on failure.  The whole operation is
`.error` only if an exception escapes to the caller. -/
def fetchDrafts (s : DraftStoreState)
    (listResult : Except String (List Draft)) (cached : List Draft) :
    Except String (DraftStoreState × List Draft) :=
  let s1 := draftReducer s .fetchDraftsStart
  jsCatch
    (do
      let drafts ← listResult
      let s2 := draftReducer s1 (.fetchDraftsSuccess drafts)
      return (s2, drafts))
    (fun e =>
      let s2 := draftReducer s1 (.fetchDraftsFail e)
      let s3 :=
        if 0 < cached.length then
          draftReducer s2 (.fetchDraftsSuccess cached)
        else s2
      return (s3, []))

/-- The value resolved by `aiService.processVoicePost`
(src/services/aiService.js line 137). -/
structure VoiceResult where
  transcript : String
  refinedText : String
  title : String
  durationMs : Nat
  deriving Repr, DecidableEq

/-- `processVoiceRecording` (src/context/DraftContext.js line 283).
`aiResult` is the settled `aiService.processVoicePost` promise and
`createResult` the settled `draftService.createDraft` promise (the
already-mapped Draft entity). -/
def processVoiceRecording (s : DraftStoreState)
    (aiResult : Except String VoiceResult)
    (createResult : Except String Draft) :
    Except String (DraftStoreState × OpResult) :=
  let s1 := draftReducer s .processVoiceStart
  jsCatch
    (do
      let _ ← aiResult
      let draft ← createResult
      let s2 := draftReducer s1 (.processVoiceSuccess draft)
      let s3 := draftReducer s2 (.createDraftSuccess draft)
      return (s3, { success := true, draft := some draft }))
    (fun e =>
      return (draftReducer s1 (.processVoiceFail e),
              { success := false, error := some e }))

/-- `updateDraftText` (src/context/DraftContext.js line 326).
`updResult` is the settled `draftService.updateDraft` promise. -/
def updateDraftText (s : DraftStoreState)
    (updResult : Except String Draft) :
    Except String (DraftStoreState × OpResult) :=
  jsCatch
    (do
      let updatedDraft ← updResult
      let s2 := draftReducer s (.updateDraftSuccess updatedDraft)
      return (s2, { success := true }))
    (fun e => return (s, { success := false, error := some e }))

/-- The text `updateDraftTone` hands to `aiService.changeTone`
(src/context/DraftContext.js line 358):
`draft.userEditedText || draft.aiRefinedText` — note the absence of a
`rawTranscript` fallback. -/
def toneSourceText (d : Draft) : String :=
  jsOr d.userEditedText d.aiRefinedText

/-- The partial-update payload of a PATCH to the draft endpoint; `none`
means the field is absent from the request body. -/
structure DraftUpdates where
  tone : Option String := none
  aiRefinedText : Option String := none
  userEditedText : Option String := none
  title : Option String := none
  deriving Repr, DecidableEq

/-- Modelled from the spec: the backend PATCH /drafts/\x7bid\x7d endpoint is
not in the repository; per section 6 of the spec it applies a partial
update ("PATCH /drafts/\x7bid\x7d — partial; server stamps updatedAt") to the
stored draft and returns the updated draft. -/
def applyUpdates (d : Draft) (u : DraftUpdates) : Draft :=
  { d with
      tone := u.tone.getD d.tone
      aiRefinedText := u.aiRefinedText.getD d.aiRefinedText
      userEditedText := u.userEditedText.getD d.userEditedText
      title := u.title.getD d.title }

/-- Modelled from the spec: the backend draft store keyed by id (spec
section 4.2, "server is authoritative").  A PATCH to an unknown id
rejects; otherwise it resolves with the patched draft, which
`draftService.updateDraft` (src/services/draftService.js line 131) maps
back into a Draft entity field by field. -/
def serverUpdate (server : List Draft) (draftId : String)
    (u : DraftUpdates) : Except String Draft :=
  match server.find? (fun d => d.id = draftId) with
  | some d => .ok (applyUpdates d u)
  | none => .error ("Draft not found on server")

/-- `updateDraftTone` (src/context/DraftContext.js line 346).
`aiChangeTone` models `aiService.changeTone` (text, newTone ->
refinedText); `server` is the authoritative backend store behind
`draftService.updateDraft`.  The draft is located by
`state.drafts.find((d) => d.id === draftId) || state.currentDraft`, and
a missing draft throws inside the try block, which its own catch turns
into a failure result. -/
def updateDraftTone (s : DraftStoreState)
    (aiChangeTone : String → String → Except String String)
    (server : List Draft) (draftId newTone : String) :
    Except String (DraftStoreState × OpResult) :=
  jsCatch
    (do
      let draft ←
        match (s.drafts.find? (fun d => d.id = draftId)).orElse
            (fun _ => s.currentDraft) with
        | some d => pure d
        | none => Except.error ("Draft not found")
      let refinedText ← aiChangeTone (toneSourceText draft) newTone
      let updatedDraft ← serverUpdate server draftId
        { tone := some newTone
          aiRefinedText := some refinedText
          userEditedText := some refinedText }
      let s2 := draftReducer s (.updateDraftSuccess updatedDraft)
      return (s2, { success := true, refinedText := some refinedText }))
    (fun e => return (s, { success := false, error := some e }))

/-- `saveDraft` (src/context/DraftContext.js line 385): identical shape
to `updateDraftText` with a caller-chosen update payload. -/
def saveDraft (s : DraftStoreState)
    (updResult : Except String Draft) :
    Except String (DraftStoreState × OpResult) :=
  jsCatch
    (do
      let updatedDraft ← updResult
      let s2 := draftReducer s (.updateDraftSuccess updatedDraft)
      return (s2, { success := true }))
    (fun e => return (s, { success := false, error := some e }))

/-- `scheduleDraft` (src/context/DraftContext.js line 403).
`schedResult` is the settled `draftService.scheduleDraft` promise.  On
success it dispatches the draft update and then `SET_STATS` built from
the pre-call `state.stats` closure value with `scheduledPosts + 1`. -/
def scheduleDraft (s : DraftStoreState)
    (schedResult : Except String Draft) :
    Except String (DraftStoreState × OpResult) :=
  jsCatch
    (do
      let updatedDraft ← schedResult
      let s2 := draftReducer s (.updateDraftSuccess updatedDraft)
      let s3 := draftReducer s2
        (.setStats { s.stats with scheduledPosts := s.stats.scheduledPosts + 1 })
      return (s3, { success := true }))
    (fun e => return (s, { success := false, error := some e }))

/-- `deleteDraft` (src/context/DraftContext.js line 438).  `delResult`
is the settled `draftService.deleteDraft` promise. -/
def deleteDraft (s : DraftStoreState)
    (delResult : Except String Unit) (draftId : String) :
    Except String (DraftStoreState × OpResult) :=
  jsCatch
    (do
      let _ ← delResult
      let s2 := draftReducer s (.deleteDraftSuccess draftId)
      return (s2, { success := true }))
    (fun e => return (s, { success := false, error := some e }))

/-- The POST /drafts request body built by `draftService.createDraft`
(src/services/draftService.js line 88 and, in the fixed revision of the
same file, line 359). -/
structure CreateRequest where
  rawTranscript : String
  aiRefinedText : String
  userEditedText : String
  title : String
  tone : String
  status : String
  audioUri : Option String
  audioDurationMs : Nat
  deriving Repr, DecidableEq

/-- `draftService.createDraft` assembles the create request: the title is
generated from `aiRefinedText || rawTranscript`, `userEditedText` is
initialised to `aiRefinedText` ("Initially same as AI text"), and the
status is the literal `draft`. -/
def buildCreateRequest (rawTranscript aiRefinedText tone : String)
    (audioUri : Option String) (audioDurationMs : Nat) : CreateRequest :=
  { rawTranscript := rawTranscript
    aiRefinedText := aiRefinedText
    userEditedText := aiRefinedText
    title := generateTitleFromContent (jsOr aiRefinedText rawTranscript)
    tone := tone
    status := ("draft")
    audioUri := audioUri
    audioDurationMs := audioDurationMs }

/-- Modelled from the spec: the backend POST /drafts endpoint is not in
the repository; per spec sections 3 and 6 the server stores the submitted
body, assigns the id ("assigned by the remote store on creation") and the
owning userId, and returns the created draft, which
`draftService.createDraft` maps back into a Draft entity. -/
def serverCreate (assignedId userId : String) (req : CreateRequest) :
    Draft :=
  { id := assignedId
    userId := userId
    rawTranscript := req.rawTranscript
    aiRefinedText := req.aiRefinedText
    userEditedText := req.userEditedText
    title := req.title
    tone := req.tone
    status := req.status
    scheduledAt := none
    publishedAt := none
    audioUri := req.audioUri
    audioDurationMs := req.audioDurationMs }

/-- The Draft entity produced by a successful
`draftService.createDraft(\x7brawTranscript, aiRefinedText, tone, ...\x7d)`
round trip. -/
def draftServiceCreateDraft (assignedId userId : String)
    (rawTranscript aiRefinedText tone : String)
    (audioUri : Option String) (audioDurationMs : Nat) : Draft :=
  serverCreate assignedId userId
    (buildCreateRequest rawTranscript aiRefinedText tone audioUri
      audioDurationMs)

/-! ## Capture phase controller (src/components/VoiceRecorder.js) -/

/-- `RECORDING_CONFIG.MAX_DURATION_MS` (src/utils/constants.js line 100). -/
def MAX_DURATION_MS : Nat := 300000

/-- `RECORDING_CONFIG.MIN_DURATION_MS` (src/utils/constants.js line 101). -/
def MIN_DURATION_MS : Nat := 3000

/-- The result object of the recording validators
(src/utils/validators.js): `\x7bisValid, error?\x7d`. -/
structure Validation where
  isValid : Bool
  error : Option String := none
  deriving Repr, DecidableEq

/-- `validateRecordingDuration` (src/utils/validators.js line 76). -/
def validateRecordingDuration (durationMs : Nat) : Validation :=
  if durationMs < MIN_DURATION_MS then
    { isValid := false
      error := some ("Recording too short. Speak for at least 3 seconds.") }
  else if MAX_DURATION_MS < durationMs then
    { isValid := false
      error := some ("Recording too long. Maximum duration is 5 minutes.") }
  else
    { isValid := true }

/-- The phase values of `VoiceRecorder` (`PHASES`, line 11). -/
inductive Phase where
  | idle
  | recording
  | processing
  | done
  | error
  deriving Repr, DecidableEq

/-- The state of one `VoiceRecorder` session: the `phase`, `duration`
and `errorMessage` React state, whether `recordingRef.current` is
non-null (`hasRecording`), whether the duration interval is armed
(`timerActive`), and an instrumentation counter `releaseCount` of how
many times `stopAndUnloadAsync` has been invoked on the current
session handle. -/
structure RecorderState where
  phase : Phase
  duration : Nat
  errorMessage : Option String
  hasRecording : Bool
  timerActive : Bool
  releaseCount : Nat
  deriving Repr, DecidableEq

/-- `stopRecording` (src/components/VoiceRecorder.js line 122): clear
the interval; bail out if there is no recording handle; on a failed
duration validation set the error message, enter the `error` phase and
release the handle; otherwise release the handle and enter the
`processing` phase.  (The deferred `setTimeout` advance to `done` and
the completion callback are a later event, not part of this
transition.) -/
def stopRecording (s : RecorderState) : RecorderState :=
  let s := { s with timerActive := false }
  if s.hasRecording = false then s
  else
    let validation := validateRecordingDuration s.duration
    if validation.isValid = false then
      { s with
          errorMessage := validation.error
          phase := .error
          releaseCount := s.releaseCount + 1
          hasRecording := false }
    else
      { s with
          releaseCount := s.releaseCount + 1
          hasRecording := false
          phase := .processing }

/-- One firing of the one-second duration interval armed by
`startRecording` (src/components/VoiceRecorder.js line 108): the
duration state advances by 1000 ms and, when it reaches
`MAX_DURATION_MS`, the callback invokes `stopRecording()` with no user
interaction.  The callback is created once, inside the `startRecording`
of the render in which recording began, so the `stopRecording` it
references is that render`s closure, whose `duration` binding is the
stale start-render value `startDuration` (0 for a fresh session) — not
the live ticked duration.  The refs it reads (`recordingRef`,
`durationIntervalRef`) are live, and the `setDuration` updater still
returns the advanced value, so the resulting state keeps the live
duration while the validation inside the stale `stopRecording` sees
`startDuration`. -/
def timerTick (startDuration : Nat) (s : RecorderState) : RecorderState :=
  if s.timerActive = false then s
  else
    let next := s.duration + 1000
    if MAX_DURATION_MS ≤ next then
      { stopRecording { s with duration := startDuration } with
          duration := next }
    else
      { s with duration := next }

/-- The session state right after a successful `startRecording`
(src/components/VoiceRecorder.js line 104): recording phase, zero
duration, live handle, armed timer. -/
def startedState : RecorderState :=
  { phase := .recording
    duration := 0
    errorMessage := none
    hasRecording := true
    timerActive := true
    releaseCount := 0 }

/-! ## Concrete fixtures -/

/-- A concrete draft used to instantiate the theorems on explicit inputs. -/
def exDraft : Draft :=
  { id := ("1")
    userId := ("u")
    rawTranscript := ("raw")
    aiRefinedText := ("ai")
    userEditedText := ("edit")
    title := ("t")
    tone := ("Professional")
    status := ("draft")
    scheduledAt := none
    publishedAt := none
    audioUri := none
    audioDurationMs := 0 }

/-! ## Claims -/

/-- C1: for every draft whose three text fields are strings,
`getDisplayText` returns `userEditedText` if it is non-empty, otherwise
`aiRefinedText` if it is non-empty, otherwise `rawTranscript`; it is a
total String-valued function (never undefined) and returns the empty
string when all three fields are empty. -/
theorem c1_getDisplayText_precedence (d : Draft) :
    (d.userEditedText ≠ ("") → getDisplayText d = d.userEditedText) ∧
    (d.userEditedText = ("") → d.aiRefinedText ≠ ("") →
      getDisplayText d = d.aiRefinedText) ∧
    (d.userEditedText = ("") → d.aiRefinedText = ("") →
      getDisplayText d = d.rawTranscript) ∧
    (d.userEditedText = ("") → d.aiRefinedText = ("") →
      d.rawTranscript = ("") → getDisplayText d = ("")) := by
  unfold getDisplayText jsOr
  refine ⟨?_, ?_, ?_, ?_⟩ <;> intros <;> simp_all

/-- C1 witness: the precedence theorem evaluated on a concrete draft
with a non-empty `userEditedText`. -/
theorem c1_getDisplayText_precedence_witness :
    exDraft.userEditedText ≠ ("") ∧ getDisplayText exDraft = exDraft.userEditedText :=
  ⟨by decide, (c1_getDisplayText_precedence exDraft).1 (by decide)⟩

/-- C8: a `stop()` in the recording phase with elapsed duration below
`MIN_DURATION_MS` moves the controller to the `error` phase, not
`processing`, releases the handle exactly once (the release counter
advances by one and the handle slot is cleared), and a repeated stop on
the resulting state is a no-op (no second release). -/
theorem c8_short_stop_error_release_once (s : RecorderState)
    (hphase : s.phase = .recording) (hrec : s.hasRecording = true)
    (hshort : s.duration < MIN_DURATION_MS) :
    (stopRecording s).phase = .error ∧
    (stopRecording s).phase ≠ .processing ∧
    (stopRecording s).releaseCount = s.releaseCount + 1 ∧
    (stopRecording s).hasRecording = false ∧
    stopRecording (stopRecording s) = stopRecording s := by
  unfold stopRecording validateRecordingDuration
  simp [hrec, hshort]

/-- C8 witness: the short-stop theorem evaluated at a two-second
recording. -/
theorem c8_short_stop_error_release_once_witness :
    (stopRecording { startedState with duration := 2000 }).phase = .error ∧
    (stopRecording { startedState with duration := 2000 }).phase ≠ .processing ∧
    (stopRecording { startedState with duration := 2000 }).releaseCount =
      ({ startedState with duration := 2000 } : RecorderState).releaseCount + 1 ∧
    (stopRecording { startedState with duration := 2000 }).hasRecording = false ∧
    stopRecording (stopRecording { startedState with duration := 2000 }) =
      stopRecording { startedState with duration := 2000 } :=
  c8_short_stop_error_release_once { startedState with duration := 2000 }
    (by decide) (by decide) (by decide)

set_option maxRecDepth 8000

/-- C9: the claim matches the spec and the source comment
(`Auto-stop at max duration`, src/components/VoiceRecorder.js line
110), but the code contradicts them: iterating the one-second tick
from a fresh session (start-render duration binding 0), the tick that
reaches `MAX_DURATION_MS` auto-invokes the stale start-render
`stopRecording` closure, whose duration binding 0 fails the
three-second minimum validation, so the controller enters the `error`
phase with the too-short message — not `processing` — after releasing
the handle once. -/
theorem c9_auto_stop_enters_error :
    (((timerTick 0)^[MAX_DURATION_MS / 1000] startedState).phase
      = Phase.error) ∧
    (((timerTick 0)^[MAX_DURATION_MS / 1000] startedState).phase
      ≠ Phase.processing) ∧
    (((timerTick 0)^[MAX_DURATION_MS / 1000] startedState).errorMessage
      = some ("Recording too short. Speak for at least 3 seconds.")) ∧
    (((timerTick 0)^[MAX_DURATION_MS / 1000] startedState).releaseCount
      = 1) ∧
    (((timerTick 0)^[MAX_DURATION_MS / 1000] startedState).hasRecording
      = false) := by
  decide

/-- C10 counterexample: the create request does initialise
`userEditedText` to `aiRefinedText`, but when `aiRefinedText` is the
empty string and `rawTranscript` is not, the freshly created draft has
display text `rawTranscript`, not the (empty) AI-refined text — the
display-text consequence asserted by the claim fails. -/
theorem c10_display_text_counterexample :
    (draftServiceCreateDraft ("42") ("u") ("hello") ("") ("Professional")
        none 0).userEditedText =
      (draftServiceCreateDraft ("42") ("u") ("hello") ("") ("Professional")
        none 0).aiRefinedText ∧
    getDisplayText (draftServiceCreateDraft ("42") ("u") ("hello") ("")
        ("Professional") none 0) ≠
      (draftServiceCreateDraft ("42") ("u") ("hello") ("") ("Professional")
        none 0).aiRefinedText := by
  decide

/-- C10 (amended): every create request built by
`draftService.createDraft` initialises `userEditedText` to the same
value as `aiRefinedText`, so the freshly created draft satisfies
`userEditedText = aiRefinedText`; when `aiRefinedText` is non-empty the
display text of the created draft equals the AI-refined text. -/
theorem c10_create_initializes_userEditedText
    (assignedId userId rawTranscript aiRefinedText tone : String)
    (audioUri : Option String) (audioDurationMs : Nat) :
    (buildCreateRequest rawTranscript aiRefinedText tone audioUri
        audioDurationMs).userEditedText =
      (buildCreateRequest rawTranscript aiRefinedText tone audioUri
        audioDurationMs).aiRefinedText ∧
    (draftServiceCreateDraft assignedId userId rawTranscript aiRefinedText
        tone audioUri audioDurationMs).userEditedText =
      (draftServiceCreateDraft assignedId userId rawTranscript aiRefinedText
        tone audioUri audioDurationMs).aiRefinedText ∧
    (aiRefinedText ≠ ("") →
      getDisplayText (draftServiceCreateDraft assignedId userId rawTranscript
          aiRefinedText tone audioUri audioDurationMs) = aiRefinedText) := by
  refine ⟨rfl, rfl, fun h => ?_⟩
  simp [draftServiceCreateDraft, serverCreate, buildCreateRequest,
    getDisplayText, jsOr, h]

/-- C10 witness: the amended theorem evaluated on a concrete voice post
with non-empty AI text. -/
theorem c10_create_initializes_userEditedText_witness :
    (draftServiceCreateDraft ("42") ("u") ("raw words") ("polished")
        ("Professional") none 0).userEditedText =
      (draftServiceCreateDraft ("42") ("u") ("raw words") ("polished")
        ("Professional") none 0).aiRefinedText ∧
    getDisplayText (draftServiceCreateDraft ("42") ("u") ("raw words")
        ("polished") ("Professional") none 0) = ("polished") :=
  ⟨(c10_create_initializes_userEditedText ("42") ("u") ("raw words")
      ("polished") ("Professional") none 0).2.1,
   (c10_create_initializes_userEditedText ("42") ("u") ("raw words")
      ("polished") ("Professional") none 0).2.2 (by decide)⟩

/-- C2 counterexample: with a non-empty cache and a failing gateway,
`fetchDrafts` ends with the cached drafts and a cleared loading flag,
but the cache-population dispatch is `FETCH_DRAFTS_SUCCESS`, whose
reducer branch resets `error` to null — the error does not remain set
as the claim asserts. -/
theorem c2_cache_fallback_counterexample :
    (fetchDrafts initialState (Except.error ("network down")) [exDraft]).map
        (fun p => (p.1.drafts.length, p.1.isLoading, p.1.error)) =
      Except.ok (1, false, (none : Option String)) := by
  rfl

/-- C2 (amended): for every cache pre-populated with N drafts (N > 0)
and a failing gateway list call, `fetchDrafts` completes with `drafts`
equal to the cached list (length N), `isLoading = false`, and `error`
reset to null by the cache-population `FETCH_DRAFTS_SUCCESS` dispatch;
the caller receives `[]`. -/
theorem c2_cache_fallback (s : DraftStoreState) (e : String)
    (cached : List Draft) (h : 0 < cached.length) :
    fetchDrafts s (Except.error e) cached =
      Except.ok
        ({ s with drafts := cached, isLoading := false, error := none }, []) := by
  simp only [fetchDrafts, draftReducer, jsCatch, h, if_pos]
  rfl

/-- C2 witness: the amended cache-fallback theorem evaluated on a
one-draft cache and a concrete network failure. -/
theorem c2_cache_fallback_witness :
    fetchDrafts initialState (Except.error ("network down")) [exDraft] =
      Except.ok
        ({ initialState with
            drafts := [exDraft], isLoading := false, error := none }, []) :=
  c2_cache_fallback initialState ("network down") [exDraft] (by decide)

/-- A concrete `processVoicePost` result used to instantiate the
theorems. -/
def exVoice : VoiceResult :=
  { transcript := ("raw"), refinedText := ("ai"), title := ("t")
    durationMs := 5000 }

/-- C6: from any store state, a successful `processVoiceRecording`
increments `stats.totalDrafts` by exactly one and prepends the created
draft at `drafts[0]`; a subsequent successful `deleteDraft` of that id
restores `stats.totalDrafts` to its prior value and leaves no entry
with that id in `drafts`. -/
theorem c6_create_then_delete_stats (s : DraftStoreState)
    (vr : VoiceResult) (d : Draft) :
    ∃ s1 r1 s2 r2,
      processVoiceRecording s (Except.ok vr) (Except.ok d) =
        Except.ok (s1, r1) ∧
      r1.success = true ∧
      s1.stats.totalDrafts = s.stats.totalDrafts + 1 ∧
      s1.drafts.head? = some d ∧
      deleteDraft s1 (Except.ok ()) d.id = Except.ok (s2, r2) ∧
      r2.success = true ∧
      s2.stats.totalDrafts = s.stats.totalDrafts ∧
      ∀ x ∈ s2.drafts, x.id ≠ d.id := by
  refine ⟨_, _, _, _, rfl, rfl, rfl, rfl, rfl, rfl, rfl, ?_⟩
  intro x hx
  simp only [draftReducer, List.mem_filter] at hx
  simpa using hx.2

/-- C6 witness: the create-then-delete theorem evaluated from the
initial store state on a concrete voice result and draft. -/
theorem c6_create_then_delete_stats_witness :
    ∃ s1 r1 s2 r2,
      processVoiceRecording initialState (Except.ok exVoice)
          (Except.ok exDraft) = Except.ok (s1, r1) ∧
      r1.success = true ∧
      s1.stats.totalDrafts = initialState.stats.totalDrafts + 1 ∧
      s1.drafts.head? = some exDraft ∧
      deleteDraft s1 (Except.ok ()) exDraft.id = Except.ok (s2, r2) ∧
      r2.success = true ∧
      s2.stats.totalDrafts = initialState.stats.totalDrafts ∧
      ∀ x ∈ s2.drafts, x.id ≠ exDraft.id :=
  c6_create_then_delete_stats initialState exVoice exDraft

/-- Every store operation wraps its body in a catch whose handler
resolves; hence no exception escapes. -/
theorem jsCatch_isOk {α : Type} (body : Except String α)
    (handler : String → Except String α)
    (h : ∀ e, (handler e).isOk = true) :
    (jsCatch body handler).isOk = true := by
  cases body with
  | ok a => rfl
  | error e => exact h e

/-- C7 counterexample: `fetchDrafts` does not return a
`\x7bsuccess, error?\x7d` result: a run whose gateway call fails (empty
cache) and a successful run that fetched zero drafts both return the
bare array `[]` to the caller — the returned value carries no success
or error field and cannot report the failure. -/
theorem c7_fetchDrafts_return_counterexample :
    (fetchDrafts initialState (Except.error ("network down")) []).map
        (fun p => p.2) = Except.ok ([] : List Draft) ∧
    (fetchDrafts initialState (Except.ok ([] : List Draft)) []).map
        (fun p => p.2) = Except.ok ([] : List Draft) :=
  ⟨rfl, rfl⟩

/-- C7 (amended): no public store operation lets an exception escape:
all seven operations resolve for every input and every gateway outcome;
`processVoiceRecording`, `updateDraftText`, `updateDraftTone`,
`saveDraft`, `scheduleDraft` and `deleteDraft` report a gateway failure
through a `\x7bsuccess := false, error\x7d` result, while `fetchDrafts`
returns the fetched list on success and the bare `[]` on failure. -/
theorem c7_no_throw_and_result_shape (s : DraftStoreState)
    (listResult : Except String (List Draft)) (cached : List Draft)
    (aiResult : Except String VoiceResult)
    (createResult updResult saveResult schedResult : Except String Draft)
    (delResult : Except String Unit)
    (aiChangeTone : String → String → Except String String)
    (server : List Draft) (draftId newTone e : String) :
    (fetchDrafts s listResult cached).isOk = true ∧
    (processVoiceRecording s aiResult createResult).isOk = true ∧
    (updateDraftText s updResult).isOk = true ∧
    (updateDraftTone s aiChangeTone server draftId newTone).isOk = true ∧
    (saveDraft s saveResult).isOk = true ∧
    (scheduleDraft s schedResult).isOk = true ∧
    (deleteDraft s delResult draftId).isOk = true ∧
    ((processVoiceRecording s (Except.error e) createResult).map
        (fun p => (p.2.success, p.2.error)) = Except.ok (false, some e)) ∧
    ((updateDraftText s (Except.error e)).map
        (fun p => (p.2.success, p.2.error)) = Except.ok (false, some e)) ∧
    (∃ s2 r, updateDraftTone s (fun _ _ => Except.error e) server draftId
        newTone = Except.ok (s2, r) ∧
      r.success = false ∧ r.error.isSome = true) ∧
    ((saveDraft s (Except.error e)).map
        (fun p => (p.2.success, p.2.error)) = Except.ok (false, some e)) ∧
    ((scheduleDraft s (Except.error e)).map
        (fun p => (p.2.success, p.2.error)) = Except.ok (false, some e)) ∧
    ((deleteDraft s (Except.error e) draftId).map
        (fun p => (p.2.success, p.2.error)) = Except.ok (false, some e)) := by
  refine ⟨?_, ?_, ?_, ?_, ?_, ?_, ?_, rfl, rfl, ?_, rfl, rfl, rfl⟩
  · exact jsCatch_isOk _ _ (fun _ => rfl)
  · exact jsCatch_isOk _ _ (fun _ => rfl)
  · exact jsCatch_isOk _ _ (fun _ => rfl)
  · exact jsCatch_isOk _ _ (fun _ => rfl)
  · exact jsCatch_isOk _ _ (fun _ => rfl)
  · exact jsCatch_isOk _ _ (fun _ => rfl)
  · exact jsCatch_isOk _ _ (fun _ => rfl)
  · unfold updateDraftTone
    cases hfind : (s.drafts.find? (fun d => d.id = draftId)).orElse
        (fun _ => s.currentDraft) with
    | none =>
        exact ⟨s, { success := false, error := some ("Draft not found") },
          rfl, rfl, rfl⟩
    | some d0 =>
        exact ⟨s, { success := false, error := some e },
          rfl, rfl, rfl⟩

/-- C7 witness: the no-throw conjunct of the amended theorem evaluated
on concrete inputs with a failing list gateway. -/
theorem c7_no_throw_and_result_shape_witness :
    (fetchDrafts initialState (Except.error ("network down")) []).isOk
      = true :=
  (c7_no_throw_and_result_shape initialState
      (Except.error ("network down")) [] (Except.ok exVoice)
      (Except.ok exDraft) (Except.ok exDraft) (Except.ok exDraft)
      (Except.ok exDraft) (Except.ok ()) (fun t _ => Except.ok t) [exDraft]
      ("1") ("Casual-Pro") ("boom")).1

/-- A successful `updateDraftTone` run: when the draft is located, the
tone-change call resolves with `rt`, and the server holds a draft under
`draftId`, the operation resolves with the patched draft dispatched
through `UPDATE_DRAFT_SUCCESS` and a `\x7bsuccess, refinedText\x7d`
result. -/
theorem updateDraftTone_run (s : DraftStoreState)
    (ai : String → String → Except String String)
    (server : List Draft) (draftId newTone : String)
    (draft0 sd : Draft) (rt : String)
    (hfind : (s.drafts.find? (fun d => d.id = draftId)).orElse
        (fun _ => s.currentDraft) = some draft0)
    (hai : ai (toneSourceText draft0) newTone = Except.ok rt)
    (hsrv : server.find? (fun d => d.id = draftId) = some sd) :
    updateDraftTone s ai server draftId newTone =
      Except.ok
        (draftReducer s (.updateDraftSuccess (applyUpdates sd
            { tone := some newTone, aiRefinedText := some rt,
              userEditedText := some rt })),
         { success := true, refinedText := some rt }) := by
  unfold updateDraftTone serverUpdate jsCatch
  rw [hfind]
  simp [hai, hsrv]
  rfl

/-- After an `UPDATE_DRAFT_SUCCESS` dispatch carrying draft `d`, every
entry of `drafts` bearing the id of `d` is `d` itself. -/
theorem updateSuccess_mem_id (s : DraftStoreState) (d : Draft) (x : Draft)
    (hx : x ∈ (draftReducer s (.updateDraftSuccess d)).drafts)
    (hxid : x.id = d.id) : x = d := by
  rcases List.mem_map.mp hx with ⟨orig, _, rfl⟩
  by_cases ho : orig.id = d.id
  · rw [if_pos ho]
  · rw [if_neg ho] at hxid
    exact absurd hxid ho

/-- After an `UPDATE_DRAFT_SUCCESS` dispatch carrying draft `d`, an
open `currentDraft` bearing the id of `d` is `d` itself. -/
theorem updateSuccess_current_id (s : DraftStoreState) (d : Draft)
    (c : Draft)
    (hc : (draftReducer s (.updateDraftSuccess d)).currentDraft = some c)
    (hcid : c.id = d.id) : c = d := by
  cases hcur : s.currentDraft with
  | none =>
      rw [show (draftReducer s (.updateDraftSuccess d)).currentDraft = none
        from by simp [draftReducer, hcur]] at hc
      exact absurd hc (by simp)
  | some c0 =>
      rw [show (draftReducer s (.updateDraftSuccess d)).currentDraft =
          (if c0.id = d.id then some d else some c0)
        from by simp [draftReducer, hcur]] at hc
      by_cases h0 : c0.id = d.id
      · rw [if_pos h0] at hc
        exact (Option.some.inj hc).symm
      · rw [if_neg h0] at hc
        have hcc := Option.some.inj hc
        exact absurd (hcc ▸ hcid) h0

/-- C3: when `updateDraftTone` succeeds, the draft stored under that id
— in `drafts`, and in `currentDraft` when it carries that id — has both
`aiRefinedText` and `userEditedText` equal to the `refinedText` the AI
gateway returned, whatever `userEditedText` held before. -/
theorem c3_updateDraftTone_overwrites_both (s : DraftStoreState)
    (aiChangeTone : String → String → Except String String)
    (server : List Draft) (draftId newTone : String)
    (draft0 sd : Draft) (rt : String)
    (hfind : (s.drafts.find? (fun d => d.id = draftId)).orElse
        (fun _ => s.currentDraft) = some draft0)
    (hai : aiChangeTone (toneSourceText draft0) newTone = Except.ok rt)
    (hsrv : server.find? (fun d => d.id = draftId) = some sd) :
    ∃ s2 r,
      updateDraftTone s aiChangeTone server draftId newTone =
        Except.ok (s2, r) ∧
      r.success = true ∧ r.refinedText = some rt ∧
      (∀ x ∈ s2.drafts, x.id = draftId →
        x.aiRefinedText = rt ∧ x.userEditedText = rt) ∧
      (∀ c, s2.currentDraft = some c → c.id = draftId →
        c.aiRefinedText = rt ∧ c.userEditedText = rt) := by
  have hsd : sd.id = draftId := by simpa using List.find?_some hsrv
  refine ⟨_, _,
    updateDraftTone_run s aiChangeTone server draftId newTone draft0 sd rt
      hfind hai hsrv, rfl, rfl, ?_, ?_⟩
  · intro x hx hxid
    have hx2 := updateSuccess_mem_id s _ x hx (hxid.trans hsd.symm)
    rw [hx2]
    exact ⟨rfl, rfl⟩
  · intro c hc hcid
    have hc2 := updateSuccess_current_id s _ c hc (hcid.trans hsd.symm)
    rw [hc2]
    exact ⟨rfl, rfl⟩

/-- C3 witness: the overwrite theorem evaluated on a one-draft store
whose draft has a prior user edit, a gateway returning a concrete toned
text, and a matching server store. -/
theorem c3_updateDraftTone_overwrites_both_witness :
    ∃ s2 r,
      updateDraftTone { initialState with drafts := [exDraft] }
          (fun _ _ => Except.ok ("toned")) [exDraft] ("1") ("Casual-Pro") =
        Except.ok (s2, r) ∧
      r.success = true ∧ r.refinedText = some ("toned") ∧
      (∀ x ∈ s2.drafts, x.id = ("1") →
        x.aiRefinedText = ("toned") ∧ x.userEditedText = ("toned")) ∧
      (∀ c, s2.currentDraft = some c → c.id = ("1") →
        c.aiRefinedText = ("toned") ∧ c.userEditedText = ("toned")) :=
  c3_updateDraftTone_overwrites_both { initialState with drafts := [exDraft] }
    (fun _ _ => Except.ok ("toned")) [exDraft] ("1") ("Casual-Pro")
    exDraft exDraft ("toned") (by decide) rfl (by decide)

/-- The draft and store used as the C4 counterexample: both
`userEditedText` and `aiRefinedText` empty, `rawTranscript` present. -/
def c4draft : Draft :=
  { exDraft with userEditedText := (""), aiRefinedText := ("") }

/-- The store holding only `c4draft`. -/
def c4state : DraftStoreState := { initialState with drafts := [c4draft] }

/-- C4 counterexample: on a draft whose `userEditedText` and
`aiRefinedText` are both empty but whose `rawTranscript` is `raw`, the
display text is `raw`, yet `updateDraftTone` hands the empty string to
the tone-change gateway (exhibited with an echo gateway, whose returned
`refinedText` is exactly the text it was passed) — the
`rawTranscript` fallback of the display-text rule is not applied. -/
theorem c4_toneSource_counterexample :
    ((updateDraftTone c4state (fun t _ => Except.ok t) [c4draft] ("1")
        ("Casual-Pro")).map (fun p => p.2.refinedText)) =
      Except.ok (some ("")) ∧
    getDisplayText c4draft = ("raw") :=
  ⟨rfl, rfl⟩

/-- C4 (amended): the text `updateDraftTone` passes to the AI gateway
is `userEditedText` if non-empty, else `aiRefinedText`; this agrees
with the display text whenever one of those two fields is non-empty,
and is the empty string — not `rawTranscript` — when both are empty. -/
theorem c4_toneSource_text (s : DraftStoreState)
    (server : List Draft) (draftId newTone : String) (draft0 sd : Draft)
    (hfind : (s.drafts.find? (fun d => d.id = draftId)).orElse
        (fun _ => s.currentDraft) = some draft0)
    (hsrv : server.find? (fun d => d.id = draftId) = some sd) :
    ((updateDraftTone s (fun t _ => Except.ok t) server draftId
        newTone).map (fun p => p.2.refinedText)) =
      Except.ok (some (toneSourceText draft0)) ∧
    (draft0.userEditedText ≠ ("") ∨ draft0.aiRefinedText ≠ ("") →
      toneSourceText draft0 = getDisplayText draft0) ∧
    (draft0.userEditedText = ("") → draft0.aiRefinedText = ("") →
      toneSourceText draft0 = ("")) := by
  refine ⟨?_, ?_, ?_⟩
  · rw [updateDraftTone_run s (fun t _ => Except.ok t) server draftId
      newTone draft0 sd (toneSourceText draft0) hfind rfl hsrv]
    rfl
  · intro h
    by_cases hu : draft0.userEditedText = ("")
    · have hai : draft0.aiRefinedText ≠ ("") := by tauto
      simp [toneSourceText, getDisplayText, jsOr, hu, hai]
    · simp [toneSourceText, getDisplayText, jsOr, hu]
  · intro h1 h2
    simp [toneSourceText, jsOr, h1, h2]

/-- C4 witness: the amended tone-source theorem evaluated on the
one-draft store with a user-edited draft. -/
theorem c4_toneSource_text_witness :
    ((updateDraftTone { initialState with drafts := [exDraft] }
        (fun t _ => Except.ok t) [exDraft] ("1") ("Casual-Pro")).map
        (fun p => p.2.refinedText)) =
      Except.ok (some (toneSourceText exDraft)) ∧
    (exDraft.userEditedText ≠ ("") ∨ exDraft.aiRefinedText ≠ ("") →
      toneSourceText exDraft = getDisplayText exDraft) ∧
    (exDraft.userEditedText = ("") → exDraft.aiRefinedText = ("") →
      toneSourceText exDraft = ("")) :=
  c4_toneSource_text { initialState with drafts := [exDraft] } [exDraft]
    ("1") ("Casual-Pro") exDraft exDraft (by decide) (by decide)

/-- The no-stale-duplicate invariant of claim C5: whenever the open
draft shares its id with an entry of `drafts`, the entry is identical
to it. -/
def storeInv (s : DraftStoreState) : Prop :=
  ∀ c, s.currentDraft = some c → ∀ d ∈ s.drafts, d.id = c.id → d = c

/-- C5 counterexample: the invariant does not hold in every reachable
state.  Dispatching `SET_CURRENT_DRAFT` with a draft and then
`FETCH_DRAFTS_SUCCESS` with a fresh copy of the same draft (same id,
different content) — both dispatched by public store operations —
leaves a stale `currentDraft` duplicating an id in `drafts`. -/
theorem c5_stale_currentDraft_counterexample :
    ¬ storeInv
      (draftReducer (draftReducer initialState (.setCurrentDraft exDraft))
        (.fetchDraftsSuccess [{ exDraft with userEditedText := ("newer") }])) := by
  intro h
  have hmem : ({ exDraft with userEditedText := ("newer") } : Draft) ∈
      (draftReducer (draftReducer initialState (.setCurrentDraft exDraft))
        (.fetchDraftsSuccess
          [{ exDraft with userEditedText := ("newer") }])).drafts := by
    simp [draftReducer]
  have heq := h exDraft rfl _ hmem rfl
  have := congrArg Draft.userEditedText heq
  simp [exDraft] at this

/-- C5 (amended): the reducer transitions that update a draft by id —
`UPDATE_DRAFT_SUCCESS` and `DELETE_DRAFT_SUCCESS` — change `drafts` and
`currentDraft` together in one transition and preserve the
no-stale-duplicate invariant; the invariant is not an inductive
property of all reachable states, since `SET_CURRENT_DRAFT` followed by
`FETCH_DRAFTS_SUCCESS` can break it. -/
theorem c5_update_delete_preserve_inv (s : DraftStoreState) (d : Draft)
    (draftId : String) (hs : storeInv s) :
    storeInv (draftReducer s (.updateDraftSuccess d)) ∧
    storeInv (draftReducer s (.deleteDraftSuccess draftId)) ∧
    (draftReducer s (.updateDraftSuccess d)).drafts =
      s.drafts.map (fun x => if x.id = d.id then d else x) ∧
    (draftReducer s (.updateDraftSuccess d)).currentDraft =
      (match s.currentDraft with
       | some c => if c.id = d.id then some d else some c
       | none => none) := by
  refine ⟨?_, ?_, rfl, rfl⟩
  · intro c hc x hx hid
    rcases List.mem_map.mp hx with ⟨orig, horig, rfl⟩
    cases hcur : s.currentDraft with
    | none =>
        rw [show (draftReducer s (.updateDraftSuccess d)).currentDraft = none
          by simp [draftReducer, hcur]] at hc
        exact absurd hc (by simp)
    | some c0 =>
        by_cases h0 : c0.id = d.id
        · rw [show (draftReducer s (.updateDraftSuccess d)).currentDraft =
              some d by simp [draftReducer, hcur, h0]] at hc
          cases hc
          by_cases ho : orig.id = d.id
          · rw [if_pos ho]
          · rw [if_neg ho] at hid
            exact absurd hid ho
        · rw [show (draftReducer s (.updateDraftSuccess d)).currentDraft =
              some c0 by simp [draftReducer, hcur, h0]] at hc
          cases hc
          by_cases ho : orig.id = d.id
          · rw [if_pos ho] at hid
            exact absurd hid.symm h0
          · rw [if_neg ho] at hid ⊢
            exact hs c hcur orig horig hid
  · intro c hc x hx hid
    have hx2 := List.mem_filter.mp hx
    cases hcur : s.currentDraft with
    | none =>
        rw [show (draftReducer s (.deleteDraftSuccess draftId)).currentDraft
            = none by simp [draftReducer, hcur]] at hc
        exact absurd hc (by simp)
    | some c0 =>
        by_cases h0 : c0.id = draftId
        · rw [show (draftReducer s (.deleteDraftSuccess draftId)).currentDraft
              = none by simp [draftReducer, hcur, h0]] at hc
          exact absurd hc (by simp)
        · rw [show (draftReducer s (.deleteDraftSuccess draftId)).currentDraft
              = some c0 by simp [draftReducer, hcur, h0]] at hc
          cases hc
          exact hs c hcur x hx2.1 hid

/-- C5 witness: the preservation theorem evaluated at the initial
state, which satisfies the invariant vacuously. -/
theorem c5_update_delete_preserve_inv_witness :
    storeInv (draftReducer initialState (.updateDraftSuccess exDraft)) ∧
    storeInv (draftReducer initialState (.deleteDraftSuccess ("1"))) ∧
    (draftReducer initialState (.updateDraftSuccess exDraft)).drafts =
      initialState.drafts.map
        (fun x => if x.id = exDraft.id then exDraft else x) ∧
    (draftReducer initialState (.updateDraftSuccess exDraft)).currentDraft =
      (match initialState.currentDraft with
       | some c => if c.id = exDraft.id then some exDraft else some c
       | none => none) :=
  c5_update_delete_preserve_inv initialState exDraft ("1")
    (fun c hc => absurd hc (by simp [initialState]))

end Linquoral
